import Mathlib

/-!
Shallow embedding of the saltstack_rabbitmq_extended plugin set:
the client module `_modules/rabbitmq_extended.py` and the three state
modules `_states/rabbitmq_exchange.py`, `_states/rabbitmq_queue.py`,
`_states/rabbitmq_binding.py`.

Modeling conventions:
* A raw result of the ambient command runner (`__salt__['cmd.run']`) is a
  `Response`: either a structured record (Python dict with `retcode` and
  `stdout`) or a plain string.
* Python string operations are modeled on `List Char` with structural
  recursion so closed terms evaluate by `rfl` / `decide`.
* Each state function takes the external world as explicit arguments (the
  listing the existence check would see, and the `Response` the mutating
  command would produce) and returns the Python return dict together with
  the list of client calls it performed, each recording the host argument
  passed.  An uncaught Python exception (`CommandExecutionError`) is
  `Except.error`.
* Parameters of the source functions that are only forwarded verbatim to
  the CLI (port, user, passwd, durable, type, arguments, runas, ...) and do
  not influence control flow are omitted from the embedding; the host
  argument, hard-coded to the literal `'localhost'` at every state-layer
  call site, is recorded in the call trace.
-/

/-- Membership of one character list as a contiguous infix of another. -/
def listIsInfix (needle : List Char) : List Char → Bool
  | [] => needle.isPrefixOf []
  | c :: rest => needle.isPrefixOf (c :: rest) || listIsInfix needle rest

/-- Python `needle in haystack` on strings: substring containment. -/
def strContains (haystack needle : String) : Bool :=
  listIsInfix needle.data haystack.data

/-- Python `s.startswith(p)`. -/
def strStarts (s p : String) : Bool :=
  p.data.isPrefixOf s.data

/-- Python `s.endswith(p)`. -/
def strEnds (s p : String) : Bool :=
  p.data.isSuffixOf s.data

/-- Split a character list at every occurrence of `c` (Python `s.split(c)`). -/
def splitOnChar (c : Char) : List Char → List (List Char)
  | [] => [[]]
  | x :: xs =>
      let rest := splitOnChar c xs
      if x = c then [] :: rest
      else
        match rest with
        | [] => [[x]]
        | r :: rs => (x :: r) :: rs

/-- Split at the first occurrence of a tab, Python `row.split('\t', 1)`;
`none` models the `ValueError` raised when the row holds no tab. -/
def splitAtFirstTab : List Char → Option (List Char × List Char)
  | [] => none
  | c :: cs =>
      if c = '\t' then some ([], cs)
      else
        match splitAtFirstTab cs with
        | none => none
        | some (l, r) => some (c :: l, r)

/-- Python `s.splitlines()` restricted to the newline character: split on
`'\n'`, a trailing newline producing no trailing empty line, `""` giving
`[]`. -/
def splitlines (s : String) : List String :=
  if s.data = [] then []
  else
    let parts := splitOnChar (Char.ofNat 10) s.data
    (if parts.getLast? = some [] then parts.dropLast else parts).map
      fun l => String.mk l

namespace rabbitmq_extended

/-- Raw result of a `cmd.run` invocation: either a structured record with a
return code and captured stdout, or the raw output as a plain string. -/
inductive Response
  | dict (retcode : Int) (stdout : String)
  | str (s : String)
  deriving DecidableEq

/-- Python `'RabbitMQ command failed: {0}'.format(response)`: a string
response formats as itself, a dict response as its Python repr. -/
def Response.fmt : Response → String
  | .str s => s
  | .dict rc out =>
      "\x7b\x27retcode\x27: " ++ toString rc ++ ", \x27stdout\x27: \x27" ++
        out ++ "\x27\x7d"

/-- The single-key dict `{msg: response}` returned by `_format_response`. -/
structure FmtResp where
  key : String
  val : Response
  deriving DecidableEq

/-- `_format_response` (lines 33-45): raise on a dict with nonzero retcode,
use the stdout text as the key for a dict with retcode 0, raise on a plain
string containing the substring `Error`, else wrap the response under the
caller-supplied message key. -/
def _format_response (response : Response) (msg : String) :
    Except String FmtResp :=
  let error := "RabbitMQ command failed: " ++ response.fmt
  match response with
  | .dict retcode stdout =>
      if retcode != 0 then Except.error error
      else Except.ok ⟨stdout, response⟩
  | .str s =>
      if strContains s "Error" then Except.error error
      else Except.ok ⟨msg, response⟩

/-- `_safe_output` (lines 48-58). -/
def _safe_output (line : String) : Bool :=
  !(  (strStarts line "Listing" && strEnds line "...")
   || strContains line "...done"
   || strStarts line "WARNING:")

/-- `_strip_listing_to_done` (lines 61-68). -/
def _strip_listing_to_done (output_list : List String) : List String :=
  output_list.filter fun line => _safe_output line

/-- A value of the dict built by `_output_to_dict`: either the empty string
(fallback for a row with no tab) or the tab-split value list produced by the
default `values_mapper`. -/
inductive DVal
  | strv (s : String)
  | listv (l : List String)
  deriving DecidableEq

/-- Processing of one data row inside the loop of `_output_to_dict` (lines
84-97): `row.split('\t', 1)` raising `ValueError` (no tab) is caught and
maps the row to the entry `(row, '')`; otherwise the default `values_mapper`
splits the value part on tabs. -/
def _row_to_entry (row : String) : String × DVal :=
  match splitAtFirstTab row.data with
  | none => (row, DVal.strv "")
  | some (key, values) =>
      (String.mk key,
       DVal.listv ((splitOnChar (Char.ofNat 9) values).map fun l => String.mk l))

/-- Python dict assignment `ret[k] = v` on an insertion-ordered association
list: update in place when the key is present, else append. -/
def dictInsert (m : List (String × DVal)) (k : String) (v : DVal) :
    List (String × DVal) :=
  if m.any (fun p => p.1 == k) then
    m.map fun p => if p.1 == k then (k, v) else p
  else m ++ [(k, v)]

/-- `_output_to_dict` (lines 71-98) with the default `values_mapper`. -/
def _output_to_dict (cmdoutput : String) : List (String × DVal) :=
  let data_rows := _strip_listing_to_done (splitlines cmdoutput)
  data_rows.foldl
    (fun ret row =>
      let e := _row_to_entry row
      dictInsert ret e.1 e.2)
    []

/-- An item of `rabbitmqadmin list exchanges --format=raw_json`; only the
`name` field is inspected by the module. -/
structure ExchangeItem where
  name : String
  deriving DecidableEq

/-- An item of `rabbitmqadmin list queues --format=raw_json`. -/
structure QueueItem where
  name : String
  deriving DecidableEq

/-- An item of `rabbitmqadmin list bindings --format=raw_json`. -/
structure BindingItem where
  source : String
  destination : String
  destination_type : String
  routing_key : String
  vhost : String
  properties_key : String
  arguments : List (String × String)
  deriving DecidableEq

/-- `exchange_exists` (lines 101-121): linear scan of the parsed listing for
a matching `name`, defaulting to `False`. -/
def exchange_exists (name : String) (listing : List ExchangeItem) : Bool :=
  listing.any fun item => item.name == name

/-- `queue_exists` (lines 124-144). -/
def queue_exists (name : String) (listing : List QueueItem) : Bool :=
  listing.any fun item => item.name == name

/-- `binding_exists` (lines 147-171): scan for an item matching on source,
destination, destination_type, routing_key and vhost. -/
def binding_exists (name destination destination_type routing_key vhost : String)
    (listing : List BindingItem) : Bool :=
  listing.any fun item =>
    item.source == name && item.destination == destination &&
    item.destination_type == destination_type &&
    item.routing_key == routing_key && item.vhost == vhost

/-- `binding_exists_with_props` (lines 174-198): first item matching the
same five fields yields its `properties_key`; `None` when no item matches. -/
def binding_exists_with_props
    (name destination destination_type routing_key vhost : String)
    (listing : List BindingItem) : Option String :=
  match listing.find? (fun item =>
      item.source == name && item.destination == destination &&
      item.destination_type == destination_type &&
      item.routing_key == routing_key && item.vhost == vhost) with
  | some item => some item.properties_key
  | none => none

/-- `add_exchange` (lines 201-227): the declare command's raw result is the
argument; the function normalizes it with message `Added`. -/
def add_exchange (res : Response) : Except String FmtResp :=
  _format_response res "Added"

/-- `add_queue` (lines 230-255). -/
def add_queue (res : Response) : Except String FmtResp :=
  _format_response res "Added"

/-- `add_binding` (lines 258-286). -/
def add_binding (res : Response) : Except String FmtResp :=
  _format_response res "Added"

/-- `delete_exchange` (lines 289-307). -/
def delete_exchange (res : Response) : Except String FmtResp :=
  _format_response res "Deleted"

/-- `delete_queue` (lines 310-328). -/
def delete_queue (res : Response) : Except String FmtResp :=
  _format_response res "Deleted"

/-- `delete_binding` (lines 331-356). -/
def delete_binding (res : Response) : Except String FmtResp :=
  _format_response res "Deleted"

end rabbitmq_extended

/-- Python truthiness test `not properties_key` on a value that is either
`None` or a string: falsy exactly for `None` and the empty string. -/
def pyNotStrOpt : Option String → Bool
  | none => true
  | some s => s == ""

/-- The `comment` slot of a state return dict: normally a string, but the
state modules also assign the raw normalized response object
(`result['Error']` / `result['Added']` / `result['Deleted']`) to it. -/
inductive StComment
  | text (s : String)
  | raw (r : rabbitmq_extended.Response)
  deriving DecidableEq

/-- The `changes` dict `{'old': ..., 'new': ...}`; the empty dict is
modeled as `none` at the use site. -/
structure Changes where
  old : String
  new : String
  deriving DecidableEq

/-- The return dict of a state function: `result` is `True`/`False`/`None`
(modeled `some true` / `some false` / `none`). -/
structure StateRet where
  name : String
  result : Option Bool
  comment : StComment
  changes : Option Changes
  deriving DecidableEq

/-- One client-module call performed by a state function, recording the
host argument the state layer passed. -/
inductive ClientCall
  | existsCheck (host : String)
  | addCall (host : String)
  | deleteCall (host : String)
  deriving DecidableEq

/-- The host argument of a client call. -/
def ClientCall.host : ClientCall → String
  | .existsCheck h => h
  | .addCall h => h
  | .deleteCall h => h

/-- Whether a client call mutates broker state (add or delete). -/
def ClientCall.isMutating : ClientCall → Bool
  | .existsCheck _ => false
  | .addCall _ => true
  | .deleteCall _ => true

/-- Whether a client call is an add. -/
def ClientCall.isAdd : ClientCall → Bool
  | .addCall _ => true
  | _ => false

/-- Whether a client call is a delete. -/
def ClientCall.isDelete : ClientCall → Bool
  | .deleteCall _ => true
  | _ => false

/-- Number of mutating client calls in a trace. -/
def mutCount (tr : List ClientCall) : Nat :=
  (tr.filter fun c => c.isMutating).length

open rabbitmq_extended in
/-- Outcome handling shared by all six state functions after a mutating
client call (e.g. `rabbitmq_exchange.present` lines 103-113 together with
the fall-through to lines 113-119 with `test` false): an exception from the
client propagates; `'Error' in result` and `result['Error']` are Python
dict-key operations on the single-key normalized dict, so the failure
branch fires exactly when that key is the string `Error`; the success
comment is the raw response when the key equals the status label, else the
initial empty comment; reaching the end records the change dict. -/
def handleMutation (name : String) (label : String)
    (callResult : Except String FmtResp) (changes : Changes) :
    Except String StateRet :=
  match callResult with
  | Except.error e => Except.error e
  | Except.ok result =>
      if result.key == "Error" then
        Except.ok ⟨name, some false, StComment.raw result.val, none⟩
      else
        let comment :=
          if result.key == label then StComment.raw result.val
          else StComment.text ""
        Except.ok ⟨name, some true, comment, some changes⟩

namespace rabbitmq_exchange

open rabbitmq_extended

/-- `present` of `_states/rabbitmq_exchange.py` (lines 43-119).  `listing`
is the parsed exchange listing the existence check observes and `res` the
raw result of the declare command, would it run.  Every client call passes
the literal host `'localhost'` (lines 96 and 103). -/
def present (name vhost : String) (test : Bool)
    (listing : List ExchangeItem) (res : Response) :
    Except String StateRet × List ClientCall :=
  if exchange_exists name listing then
    (Except.ok ⟨name, some true,
        StComment.text ("Exchange \x27" ++ name ++ "\x27 for vhost \x27" ++
          vhost ++ "\x27 already exists."), none⟩,
     [ClientCall.existsCheck "localhost"])
  else if !test then
    (handleMutation name "Added" (add_exchange res) ⟨"", name⟩,
     [ClientCall.existsCheck "localhost", ClientCall.addCall "localhost"])
  else
    (Except.ok ⟨name, none,
        StComment.text ("Exchange \x27" ++ name ++ "\x27 for vhost \x27" ++
          vhost ++ "\x27 will be created."), some ⟨"", name⟩⟩,
     [ClientCall.existsCheck "localhost"])

/-- `absent` of `_states/rabbitmq_exchange.py` (lines 122-172). -/
def absent (name vhost : String) (test : Bool)
    (listing : List ExchangeItem) (res : Response) :
    Except String StateRet × List ClientCall :=
  if !(exchange_exists name listing) then
    (Except.ok ⟨name, some true,
        StComment.text ("Exchange \x27" ++ name ++ "\x27 for vhost \x27" ++
          vhost ++ "\x27 already not exists."), none⟩,
     [ClientCall.existsCheck "localhost"])
  else if !test then
    (handleMutation name "Deleted" (delete_exchange res) ⟨name, ""⟩,
     [ClientCall.existsCheck "localhost", ClientCall.deleteCall "localhost"])
  else
    (Except.ok ⟨name, none,
        StComment.text ("Exchange \x27" ++ name ++
          "\x27 will be removed from vhost \x27" ++ vhost ++ "\x27."),
        some ⟨name, ""⟩⟩,
     [ClientCall.existsCheck "localhost"])

end rabbitmq_exchange

namespace rabbitmq_queue

open rabbitmq_extended

/-- `present` of `_states/rabbitmq_queue.py` (lines 44-120). -/
def present (name vhost : String) (test : Bool)
    (listing : List QueueItem) (res : Response) :
    Except String StateRet × List ClientCall :=
  if queue_exists name listing then
    (Except.ok ⟨name, some true,
        StComment.text ("Queue \x27" ++ name ++ "\x27 for vhost \x27" ++
          vhost ++ "\x27 already exists."), none⟩,
     [ClientCall.existsCheck "localhost"])
  else if !test then
    (handleMutation name "Added" (add_queue res) ⟨"", name⟩,
     [ClientCall.existsCheck "localhost", ClientCall.addCall "localhost"])
  else
    (Except.ok ⟨name, none,
        StComment.text ("Queue \x27" ++ name ++ "\x27 for vhost \x27" ++
          vhost ++ "\x27 will be created."), some ⟨"", name⟩⟩,
     [ClientCall.existsCheck "localhost"])

/-- `absent` of `_states/rabbitmq_queue.py` (lines 123-173). -/
def absent (name vhost : String) (test : Bool)
    (listing : List QueueItem) (res : Response) :
    Except String StateRet × List ClientCall :=
  if !(queue_exists name listing) then
    (Except.ok ⟨name, some true,
        StComment.text ("Queue \x27" ++ name ++ "\x27 for vhost \x27" ++
          vhost ++ "\x27 already not exists."), none⟩,
     [ClientCall.existsCheck "localhost"])
  else if !test then
    (handleMutation name "Deleted" (delete_queue res) ⟨name, ""⟩,
     [ClientCall.existsCheck "localhost", ClientCall.deleteCall "localhost"])
  else
    (Except.ok ⟨name, none,
        StComment.text ("Queue \x27" ++ name ++
          "\x27 will be removed from vhost \x27" ++ vhost ++ "\x27."),
        some ⟨name, ""⟩⟩,
     [ClientCall.existsCheck "localhost"])

end rabbitmq_queue

namespace rabbitmq_binding

open rabbitmq_extended

/-- `present` of `_states/rabbitmq_binding.py` (lines 39-109); the
existence check is `binding_exists` on the five identity fields. -/
def present (name destination destination_type routing_key vhost : String)
    (test : Bool) (listing : List BindingItem) (res : Response) :
    Except String StateRet × List ClientCall :=
  if binding_exists name destination destination_type routing_key vhost listing then
    (Except.ok ⟨name, some true,
        StComment.text ("Binding \x27" ++ name ++ "\x27 for vhost \x27" ++
          vhost ++ "\x27 already exists."), none⟩,
     [ClientCall.existsCheck "localhost"])
  else if !test then
    (handleMutation name "Added" (add_binding res) ⟨"", name⟩,
     [ClientCall.existsCheck "localhost", ClientCall.addCall "localhost"])
  else
    (Except.ok ⟨name, none,
        StComment.text ("Binding \x27" ++ name ++ "\x27 for vhost \x27" ++
          vhost ++ "\x27 will be created."), some ⟨"", name⟩⟩,
     [ClientCall.existsCheck "localhost"])

/-- `absent` of `_states/rabbitmq_binding.py` (lines 112-171), keeping the
source parameter order `(name, destination, routing_key, destination_type)`
and the falsy test `if not properties_key` on the value returned by
`binding_exists_with_props` (line 150); the dry-run comment really says
`Exchange` in the source (line 169). -/
def absent (name destination routing_key destination_type vhost : String)
    (test : Bool) (listing : List BindingItem) (res : Response) :
    Except String StateRet × List ClientCall :=
  let properties_key :=
    binding_exists_with_props name destination destination_type routing_key
      vhost listing
  if pyNotStrOpt properties_key then
    (Except.ok ⟨name, some true,
        StComment.text ("Binding \x27" ++ name ++ "\x27 for vhost \x27" ++
          vhost ++ "\x27 not exists."), none⟩,
     [ClientCall.existsCheck "localhost"])
  else if !test then
    (handleMutation name "Deleted" (delete_binding res) ⟨name, ""⟩,
     [ClientCall.existsCheck "localhost", ClientCall.deleteCall "localhost"])
  else
    (Except.ok ⟨name, none,
        StComment.text ("Exchange \x27" ++ name ++
          "\x27 will be removed from vhost \x27" ++ vhost ++ "\x27."),
        some ⟨name, ""⟩⟩,
     [ClientCall.existsCheck "localhost"])

end rabbitmq_binding

open rabbitmq_extended

/-- A character list containing no tab has no first-tab split, i.e. the
Python `row.split(tab, 1)` raises `ValueError` on it. -/
theorem splitAtFirstTab_eq_none_of_no_tab (cs : List Char)
    (h : cs.contains (Char.ofNat 9) = false) : splitAtFirstTab cs = none := by
  induction cs with
  | nil => rfl
  | cons c cs ih =>
      simp only [List.contains_cons, Bool.or_eq_false_iff, beq_eq_false_iff_ne,
        ne_eq] at h
      simp only [splitAtFirstTab]
      rw [if_neg (fun hc => h.1 hc.symm), ih h.2]

/-- `binding_exists_with_props` is the `properties_key` projection of the
first listing item matching the five identity fields. -/
theorem binding_with_props_as_map
    (n d dt rk vh : String) (l : List BindingItem) :
    binding_exists_with_props n d dt rk vh l =
      (l.find? fun item =>
        item.source == n && item.destination == d &&
        item.destination_type == dt && item.routing_key == rk &&
        item.vhost == vh).map (fun item => item.properties_key) := by
  unfold binding_exists_with_props
  cases hf : l.find? fun item =>
      item.source == n && item.destination == d &&
      item.destination_type == dt && item.routing_key == rk &&
      item.vhost == vh <;> simp [hf]

/-- C4: `_format_response` is a four-way case split: a dict response with
nonzero retcode raises an execution error; a dict response with retcode 0
uses its stdout text as the message key; a plain-string response containing
the substring `Error` raises an execution error; any other plain-string
response is wrapped under the caller-supplied status label. -/
theorem format_response_four_cases :
    (∀ (rc : Int) (out msg : String), rc ≠ 0 →
      _format_response (Response.dict rc out) msg =
        Except.error ("RabbitMQ command failed: " ++ (Response.dict rc out).fmt))
  ∧ (∀ (out msg : String),
      _format_response (Response.dict 0 out) msg =
        Except.ok ⟨out, Response.dict 0 out⟩)
  ∧ (∀ (s msg : String), strContains s "Error" = true →
      _format_response (Response.str s) msg =
        Except.error ("RabbitMQ command failed: " ++ s))
  ∧ (∀ (s msg : String), strContains s "Error" = false →
      _format_response (Response.str s) msg =
        Except.ok ⟨msg, Response.str s⟩) := by
  refine ⟨?_, ?_, ?_, ?_⟩ <;> intros <;>
    simp_all [_format_response, Response.fmt]

/-- Witness for C4: a dict response with retcode 1 raises. -/
theorem format_response_four_cases_witness :
    _format_response (Response.dict 1 "boom") "Added" =
      Except.error
        ("RabbitMQ command failed: " ++ (Response.dict 1 "boom").fmt) :=
  format_response_four_cases.1 1 "boom" "Added" (by decide)

/-- C6: `binding_exists` holds exactly when some listed record matches on
the five fields source, destination, destination_type, routing_key and
vhost (ignoring `arguments` and `properties_key`), and
`binding_exists_with_props` returns `none` exactly when no record matches
and otherwise the `properties_key` of a matching record. -/
theorem binding_identity_five_fields :
    (∀ (n d dt rk vh : String) (l : List BindingItem),
      binding_exists n d dt rk vh l = true ↔
        ∃ item ∈ l, item.source = n ∧ item.destination = d ∧
          item.destination_type = dt ∧ item.routing_key = rk ∧
          item.vhost = vh)
  ∧ (∀ (n d dt rk vh : String) (l : List BindingItem),
      binding_exists_with_props n d dt rk vh l = none ↔
        ¬ ∃ item ∈ l, item.source = n ∧ item.destination = d ∧
          item.destination_type = dt ∧ item.routing_key = rk ∧
          item.vhost = vh)
  ∧ (∀ (n d dt rk vh k : String) (l : List BindingItem),
      binding_exists_with_props n d dt rk vh l = some k →
        ∃ item ∈ l, (item.source = n ∧ item.destination = d ∧
          item.destination_type = dt ∧ item.routing_key = rk ∧
          item.vhost = vh) ∧ item.properties_key = k) := by
  refine ⟨?_, ?_, ?_⟩
  · intro n d dt rk vh l
    simp [binding_exists, List.any_eq_true, Bool.and_eq_true, beq_iff_eq,
      and_assoc]
  · intro n d dt rk vh l
    rw [binding_with_props_as_map, Option.map_eq_none', List.find?_eq_none]
    simp [Bool.and_eq_true, beq_iff_eq, and_assoc, not_exists]
  · intro n d dt rk vh k l h
    rw [binding_with_props_as_map] at h
    rcases Option.map_eq_some'.mp h with ⟨item, hfind, hkey⟩
    have hmem := List.mem_of_find?_eq_some hfind
    have hp := List.find?_some hfind
    simp only [Bool.and_eq_true, beq_iff_eq] at hp
    exact ⟨item, hmem, ⟨hp.1.1.1.1, hp.1.1.1.2, hp.1.1.2, hp.1.2, hp.2⟩, hkey⟩

/-- Witness for C6: on a one-item listing whose record matches the five
fields but carries extra arguments, the record is found and its
properties_key is returned. -/
theorem binding_identity_five_fields_witness :
    ∃ item ∈ [(⟨"src", "dst", "queue", "rk", "/", "pk",
        [("x-match", "all")]⟩ : BindingItem)],
      (item.source = "src" ∧ item.destination = "dst" ∧
        item.destination_type = "queue" ∧ item.routing_key = "rk" ∧
        item.vhost = "/") ∧ item.properties_key = "pk" :=
  binding_identity_five_fields.2.2 "src" "dst" "queue" "rk" "/" "pk"
    [⟨"src", "dst", "queue", "rk", "/", "pk", [("x-match", "all")]⟩] rfl

/-- C7: a data row with no tab character maps to an entry whose key is the
whole row and whose value is the empty string, without raising; in
particular the listing output `/` parses to the dict with the single entry
key `/` and empty-string value. -/
theorem row_without_tab_parses_empty :
    (∀ row : String, row.data.contains (Char.ofNat 9) = false →
      _row_to_entry row = (row, DVal.strv ""))
  ∧ _output_to_dict "/" = [("/", DVal.strv "")] := by
  constructor
  · intro row h
    unfold _row_to_entry
    rw [splitAtFirstTab_eq_none_of_no_tab row.data h]
  · rfl

/-- Witness for C7: the row `/` has no tab and parses to the entry with
empty-string value. -/
theorem row_without_tab_parses_empty_witness :
    _row_to_entry "/" = ("/", DVal.strv "") :=
  row_without_tab_parses_empty.1 "/" (by decide)

/-- C1: for each entity kind, when the existence check reports the entity
already exists, `present` returns result true, empty changes and an
`already exists` comment, and performs no mutating client call (the trace
is exactly the existence check). -/
theorem present_noop_when_exists :
    (∀ (n v : String) (t : Bool) (l : List ExchangeItem) (r : Response),
      exchange_exists n l = true →
      rabbitmq_exchange.present n v t l r =
        (Except.ok ⟨n, some true,
            StComment.text ("Exchange \x27" ++ n ++ "\x27 for vhost \x27" ++
              v ++ "\x27 already exists."), none⟩,
         [ClientCall.existsCheck "localhost"]))
  ∧ (∀ (n v : String) (t : Bool) (l : List QueueItem) (r : Response),
      queue_exists n l = true →
      rabbitmq_queue.present n v t l r =
        (Except.ok ⟨n, some true,
            StComment.text ("Queue \x27" ++ n ++ "\x27 for vhost \x27" ++
              v ++ "\x27 already exists."), none⟩,
         [ClientCall.existsCheck "localhost"]))
  ∧ (∀ (n d dt rk v : String) (t : Bool) (l : List BindingItem)
        (r : Response),
      binding_exists n d dt rk v l = true →
      rabbitmq_binding.present n d dt rk v t l r =
        (Except.ok ⟨n, some true,
            StComment.text ("Binding \x27" ++ n ++ "\x27 for vhost \x27" ++
              v ++ "\x27 already exists."), none⟩,
         [ClientCall.existsCheck "localhost"])) := by
  refine ⟨?_, ?_, ?_⟩ <;> intros <;>
    simp_all [rabbitmq_exchange.present, rabbitmq_queue.present,
      rabbitmq_binding.present]

/-- Witness for C1: a one-exchange listing containing the target name. -/
theorem present_noop_when_exists_witness :
    rabbitmq_exchange.present "ex" "/" false [⟨"ex"⟩] (Response.str "out") =
      (Except.ok ⟨"ex", some true,
          StComment.text
            "Exchange \x27ex\x27 for vhost \x27/\x27 already exists.",
          none⟩,
       [ClientCall.existsCheck "localhost"]) :=
  present_noop_when_exists.1 "ex" "/" false [⟨"ex"⟩] (Response.str "out")
    (by decide)

/-- C2: for each entity kind, `absent` on a nonexistent entity (existence
check reports absent) returns result true, empty changes and the
`already not exists` / `not exists` comment, and performs no mutating
client call. -/
theorem absent_noop_when_not_exists :
    (∀ (n v : String) (t : Bool) (l : List ExchangeItem) (r : Response),
      exchange_exists n l = false →
      rabbitmq_exchange.absent n v t l r =
        (Except.ok ⟨n, some true,
            StComment.text ("Exchange \x27" ++ n ++ "\x27 for vhost \x27" ++
              v ++ "\x27 already not exists."), none⟩,
         [ClientCall.existsCheck "localhost"]))
  ∧ (∀ (n v : String) (t : Bool) (l : List QueueItem) (r : Response),
      queue_exists n l = false →
      rabbitmq_queue.absent n v t l r =
        (Except.ok ⟨n, some true,
            StComment.text ("Queue \x27" ++ n ++ "\x27 for vhost \x27" ++
              v ++ "\x27 already not exists."), none⟩,
         [ClientCall.existsCheck "localhost"]))
  ∧ (∀ (n d rk dt v : String) (t : Bool) (l : List BindingItem)
        (r : Response),
      binding_exists_with_props n d dt rk v l = none →
      rabbitmq_binding.absent n d rk dt v t l r =
        (Except.ok ⟨n, some true,
            StComment.text ("Binding \x27" ++ n ++ "\x27 for vhost \x27" ++
              v ++ "\x27 not exists."), none⟩,
         [ClientCall.existsCheck "localhost"])) := by
  refine ⟨?_, ?_, ?_⟩ <;> intros <;>
    simp_all [rabbitmq_exchange.absent, rabbitmq_queue.absent,
      rabbitmq_binding.absent, pyNotStrOpt]

/-- Witness for C2: an empty listing, so the entity does not exist. -/
theorem absent_noop_when_not_exists_witness :
    rabbitmq_queue.absent "q" "/" false [] (Response.str "out") =
      (Except.ok ⟨"q", some true,
          StComment.text
            "Queue \x27q\x27 for vhost \x27/\x27 already not exists.",
          none⟩,
       [ClientCall.existsCheck "localhost"]) :=
  absent_noop_when_not_exists.2.1 "q" "/" false [] (Response.str "out")
    (by decide)

/-- C3: in dry-run mode every present/absent invocation performs only the
existence check (the trace is exactly the existence check, never an add or
delete); when a change would occur it returns result `None` with the
`{old, new}` change descriptor, and when no change would occur it returns
result true with empty changes. -/
theorem dry_run_only_checks_existence :
    (∀ (n v : String) (l : List ExchangeItem) (r : Response),
      rabbitmq_exchange.present n v true l r =
        (if exchange_exists n l then
          (Except.ok ⟨n, some true,
              StComment.text ("Exchange \x27" ++ n ++ "\x27 for vhost \x27" ++
                v ++ "\x27 already exists."), none⟩,
           [ClientCall.existsCheck "localhost"])
        else
          (Except.ok ⟨n, none,
              StComment.text ("Exchange \x27" ++ n ++ "\x27 for vhost \x27" ++
                v ++ "\x27 will be created."), some ⟨"", n⟩⟩,
           [ClientCall.existsCheck "localhost"])))
  ∧ (∀ (n v : String) (l : List ExchangeItem) (r : Response),
      rabbitmq_exchange.absent n v true l r =
        (if exchange_exists n l then
          (Except.ok ⟨n, none,
              StComment.text ("Exchange \x27" ++ n ++
                "\x27 will be removed from vhost \x27" ++ v ++ "\x27."),
              some ⟨n, ""⟩⟩,
           [ClientCall.existsCheck "localhost"])
        else
          (Except.ok ⟨n, some true,
              StComment.text ("Exchange \x27" ++ n ++ "\x27 for vhost \x27" ++
                v ++ "\x27 already not exists."), none⟩,
           [ClientCall.existsCheck "localhost"])))
  ∧ (∀ (n v : String) (l : List QueueItem) (r : Response),
      rabbitmq_queue.present n v true l r =
        (if queue_exists n l then
          (Except.ok ⟨n, some true,
              StComment.text ("Queue \x27" ++ n ++ "\x27 for vhost \x27" ++
                v ++ "\x27 already exists."), none⟩,
           [ClientCall.existsCheck "localhost"])
        else
          (Except.ok ⟨n, none,
              StComment.text ("Queue \x27" ++ n ++ "\x27 for vhost \x27" ++
                v ++ "\x27 will be created."), some ⟨"", n⟩⟩,
           [ClientCall.existsCheck "localhost"])))
  ∧ (∀ (n v : String) (l : List QueueItem) (r : Response),
      rabbitmq_queue.absent n v true l r =
        (if queue_exists n l then
          (Except.ok ⟨n, none,
              StComment.text ("Queue \x27" ++ n ++
                "\x27 will be removed from vhost \x27" ++ v ++ "\x27."),
              some ⟨n, ""⟩⟩,
           [ClientCall.existsCheck "localhost"])
        else
          (Except.ok ⟨n, some true,
              StComment.text ("Queue \x27" ++ n ++ "\x27 for vhost \x27" ++
                v ++ "\x27 already not exists."), none⟩,
           [ClientCall.existsCheck "localhost"])))
  ∧ (∀ (n d dt rk v : String) (l : List BindingItem) (r : Response),
      rabbitmq_binding.present n d dt rk v true l r =
        (if binding_exists n d dt rk v l then
          (Except.ok ⟨n, some true,
              StComment.text ("Binding \x27" ++ n ++ "\x27 for vhost \x27" ++
                v ++ "\x27 already exists."), none⟩,
           [ClientCall.existsCheck "localhost"])
        else
          (Except.ok ⟨n, none,
              StComment.text ("Binding \x27" ++ n ++ "\x27 for vhost \x27" ++
                v ++ "\x27 will be created."), some ⟨"", n⟩⟩,
           [ClientCall.existsCheck "localhost"])))
  ∧ (∀ (n d rk dt v : String) (l : List BindingItem) (r : Response),
      rabbitmq_binding.absent n d rk dt v true l r =
        (if pyNotStrOpt (binding_exists_with_props n d dt rk v l) then
          (Except.ok ⟨n, some true,
              StComment.text ("Binding \x27" ++ n ++ "\x27 for vhost \x27" ++
                v ++ "\x27 not exists."), none⟩,
           [ClientCall.existsCheck "localhost"])
        else
          (Except.ok ⟨n, none,
              StComment.text ("Exchange \x27" ++ n ++
                "\x27 will be removed from vhost \x27" ++ v ++ "\x27."),
              some ⟨n, ""⟩⟩,
           [ClientCall.existsCheck "localhost"]))) := by
  refine ⟨?_, ?_, ?_, ?_, ?_, ?_⟩
  · intro n v l r
    cases h : exchange_exists n l <;> simp [rabbitmq_exchange.present, h]
  · intro n v l r
    cases h : exchange_exists n l <;> simp [rabbitmq_exchange.absent, h]
  · intro n v l r
    cases h : queue_exists n l <;> simp [rabbitmq_queue.present, h]
  · intro n v l r
    cases h : queue_exists n l <;> simp [rabbitmq_queue.absent, h]
  · intro n d dt rk v l r
    cases h : binding_exists n d dt rk v l <;>
      simp [rabbitmq_binding.present, h]
  · intro n d rk dt v l r
    cases h : pyNotStrOpt (binding_exists_with_props n d dt rk v l) <;>
      simp [rabbitmq_binding.absent, h]

/-- Counterexample for C5: at a concrete input in non-dry-run mode, a
plain-string response of the mutating call carrying the `Error` marker
makes the state function raise the client's execution error (the Python
`CommandExecutionError` from `_format_response` propagates uncaught), so
no record with result false is returned. -/
theorem error_marker_raises_counterexample :
    rabbitmq_exchange.present "e" "/" false []
        (Response.str "Error: access refused") =
      (Except.error "RabbitMQ command failed: Error: access refused",
       [ClientCall.existsCheck "localhost", ClientCall.addCall "localhost"]) :=
  rfl

/-- C5 (amended): in non-dry-run mode with a change to make, a plain-string
mutating-call response containing `Error` makes the state function raise
the execution error (no record is returned); the state returns result false
— with the raw normalized response as comment and empty changes — exactly
when the normalized record's key is the exact string `Error` (a structured
response with retcode 0 and stdout `Error`), because `\x27Error\x27 in
result` is a Python dict-key test; a successful mutating call yields result
true, the raw response as comment, and a change record `{old, new}` with
the name appearing (present) or disappearing (absent). -/
theorem mutation_outcome_amended :
    (∀ (n v : String) (l : List ExchangeItem),
      exchange_exists n l = false →
        (∀ s, strContains s "Error" = true →
          rabbitmq_exchange.present n v false l (Response.str s) =
            (Except.error ("RabbitMQ command failed: " ++ s),
             [ClientCall.existsCheck "localhost",
              ClientCall.addCall "localhost"]))
      ∧ (rabbitmq_exchange.present n v false l (Response.dict 0 "Error") =
          (Except.ok ⟨n, some false,
              StComment.raw (Response.dict 0 "Error"), none⟩,
           [ClientCall.existsCheck "localhost",
            ClientCall.addCall "localhost"]))
      ∧ (∀ s, strContains s "Error" = false →
          rabbitmq_exchange.present n v false l (Response.str s) =
            (Except.ok ⟨n, some true, StComment.raw (Response.str s),
                some ⟨"", n⟩⟩,
             [ClientCall.existsCheck "localhost",
              ClientCall.addCall "localhost"])))
  ∧ (∀ (n v : String) (l : List ExchangeItem),
      exchange_exists n l = true →
        (∀ s, strContains s "Error" = true →
          rabbitmq_exchange.absent n v false l (Response.str s) =
            (Except.error ("RabbitMQ command failed: " ++ s),
             [ClientCall.existsCheck "localhost",
              ClientCall.deleteCall "localhost"]))
      ∧ (rabbitmq_exchange.absent n v false l (Response.dict 0 "Error") =
          (Except.ok ⟨n, some false,
              StComment.raw (Response.dict 0 "Error"), none⟩,
           [ClientCall.existsCheck "localhost",
            ClientCall.deleteCall "localhost"]))
      ∧ (∀ s, strContains s "Error" = false →
          rabbitmq_exchange.absent n v false l (Response.str s) =
            (Except.ok ⟨n, some true, StComment.raw (Response.str s),
                some ⟨n, ""⟩⟩,
             [ClientCall.existsCheck "localhost",
              ClientCall.deleteCall "localhost"])))
  ∧ (∀ (n v : String) (l : List QueueItem),
      queue_exists n l = false →
        (∀ s, strContains s "Error" = true →
          rabbitmq_queue.present n v false l (Response.str s) =
            (Except.error ("RabbitMQ command failed: " ++ s),
             [ClientCall.existsCheck "localhost",
              ClientCall.addCall "localhost"]))
      ∧ (rabbitmq_queue.present n v false l (Response.dict 0 "Error") =
          (Except.ok ⟨n, some false,
              StComment.raw (Response.dict 0 "Error"), none⟩,
           [ClientCall.existsCheck "localhost",
            ClientCall.addCall "localhost"]))
      ∧ (∀ s, strContains s "Error" = false →
          rabbitmq_queue.present n v false l (Response.str s) =
            (Except.ok ⟨n, some true, StComment.raw (Response.str s),
                some ⟨"", n⟩⟩,
             [ClientCall.existsCheck "localhost",
              ClientCall.addCall "localhost"])))
  ∧ (∀ (n v : String) (l : List QueueItem),
      queue_exists n l = true →
        (∀ s, strContains s "Error" = true →
          rabbitmq_queue.absent n v false l (Response.str s) =
            (Except.error ("RabbitMQ command failed: " ++ s),
             [ClientCall.existsCheck "localhost",
              ClientCall.deleteCall "localhost"]))
      ∧ (rabbitmq_queue.absent n v false l (Response.dict 0 "Error") =
          (Except.ok ⟨n, some false,
              StComment.raw (Response.dict 0 "Error"), none⟩,
           [ClientCall.existsCheck "localhost",
            ClientCall.deleteCall "localhost"]))
      ∧ (∀ s, strContains s "Error" = false →
          rabbitmq_queue.absent n v false l (Response.str s) =
            (Except.ok ⟨n, some true, StComment.raw (Response.str s),
                some ⟨n, ""⟩⟩,
             [ClientCall.existsCheck "localhost",
              ClientCall.deleteCall "localhost"])))
  ∧ (∀ (n d dt rk v : String) (l : List BindingItem),
      binding_exists n d dt rk v l = false →
        (∀ s, strContains s "Error" = true →
          rabbitmq_binding.present n d dt rk v false l (Response.str s) =
            (Except.error ("RabbitMQ command failed: " ++ s),
             [ClientCall.existsCheck "localhost",
              ClientCall.addCall "localhost"]))
      ∧ (rabbitmq_binding.present n d dt rk v false l
            (Response.dict 0 "Error") =
          (Except.ok ⟨n, some false,
              StComment.raw (Response.dict 0 "Error"), none⟩,
           [ClientCall.existsCheck "localhost",
            ClientCall.addCall "localhost"]))
      ∧ (∀ s, strContains s "Error" = false →
          rabbitmq_binding.present n d dt rk v false l (Response.str s) =
            (Except.ok ⟨n, some true, StComment.raw (Response.str s),
                some ⟨"", n⟩⟩,
             [ClientCall.existsCheck "localhost",
              ClientCall.addCall "localhost"])))
  ∧ (∀ (n d rk dt v k : String) (l : List BindingItem),
      binding_exists_with_props n d dt rk v l = some k → k ≠ "" →
        (∀ s, strContains s "Error" = true →
          rabbitmq_binding.absent n d rk dt v false l (Response.str s) =
            (Except.error ("RabbitMQ command failed: " ++ s),
             [ClientCall.existsCheck "localhost",
              ClientCall.deleteCall "localhost"]))
      ∧ (rabbitmq_binding.absent n d rk dt v false l
            (Response.dict 0 "Error") =
          (Except.ok ⟨n, some false,
              StComment.raw (Response.dict 0 "Error"), none⟩,
           [ClientCall.existsCheck "localhost",
            ClientCall.deleteCall "localhost"]))
      ∧ (∀ s, strContains s "Error" = false →
          rabbitmq_binding.absent n d rk dt v false l (Response.str s) =
            (Except.ok ⟨n, some true, StComment.raw (Response.str s),
                some ⟨n, ""⟩⟩,
             [ClientCall.existsCheck "localhost",
              ClientCall.deleteCall "localhost"]))) := by
  refine ⟨?_, ?_, ?_, ?_, ?_, ?_⟩ <;> intros <;> refine ⟨?_, ?_, ?_⟩ <;>
    intros <;>
    simp_all [rabbitmq_exchange.present, rabbitmq_exchange.absent,
      rabbitmq_queue.present, rabbitmq_queue.absent,
      rabbitmq_binding.present, rabbitmq_binding.absent, handleMutation,
      add_exchange, add_queue, add_binding, delete_exchange, delete_queue,
      delete_binding, _format_response, Response.fmt, pyNotStrOpt]

/-- Witness for C5 (amended): a successful declare on an empty broker. -/
theorem mutation_outcome_amended_witness :
    rabbitmq_exchange.present "e" "/" false []
        (Response.str "exchange declared") =
      (Except.ok ⟨"e", some true,
          StComment.raw (Response.str "exchange declared"),
          some ⟨"", "e"⟩⟩,
       [ClientCall.existsCheck "localhost",
        ClientCall.addCall "localhost"]) :=
  ((mutation_outcome_amended.1 "e" "/" [] (by decide)).2.2
    "exchange declared" (by decide))

/-- C8: per state invocation at most one mutating client call occurs,
`present` never issues a delete, `absent` never issues an add, and the
number of mutating calls is zero in the no-op and dry-run cases and exactly
one otherwise. -/
theorem one_mutating_call_per_invocation :
    (∀ (n v : String) (t : Bool) (l : List ExchangeItem) (r : Response),
      mutCount (rabbitmq_exchange.present n v t l r).2 ≤ 1
    ∧ ((rabbitmq_exchange.present n v t l r).2.all
        fun c => !c.isDelete) = true
    ∧ (t = true ∨ exchange_exists n l = true →
        mutCount (rabbitmq_exchange.present n v t l r).2 = 0)
    ∧ (t = false ∧ exchange_exists n l = false →
        mutCount (rabbitmq_exchange.present n v t l r).2 = 1))
  ∧ (∀ (n v : String) (t : Bool) (l : List ExchangeItem) (r : Response),
      mutCount (rabbitmq_exchange.absent n v t l r).2 ≤ 1
    ∧ ((rabbitmq_exchange.absent n v t l r).2.all
        fun c => !c.isAdd) = true
    ∧ (t = true ∨ exchange_exists n l = false →
        mutCount (rabbitmq_exchange.absent n v t l r).2 = 0)
    ∧ (t = false ∧ exchange_exists n l = true →
        mutCount (rabbitmq_exchange.absent n v t l r).2 = 1))
  ∧ (∀ (n v : String) (t : Bool) (l : List QueueItem) (r : Response),
      mutCount (rabbitmq_queue.present n v t l r).2 ≤ 1
    ∧ ((rabbitmq_queue.present n v t l r).2.all
        fun c => !c.isDelete) = true
    ∧ (t = true ∨ queue_exists n l = true →
        mutCount (rabbitmq_queue.present n v t l r).2 = 0)
    ∧ (t = false ∧ queue_exists n l = false →
        mutCount (rabbitmq_queue.present n v t l r).2 = 1))
  ∧ (∀ (n v : String) (t : Bool) (l : List QueueItem) (r : Response),
      mutCount (rabbitmq_queue.absent n v t l r).2 ≤ 1
    ∧ ((rabbitmq_queue.absent n v t l r).2.all
        fun c => !c.isAdd) = true
    ∧ (t = true ∨ queue_exists n l = false →
        mutCount (rabbitmq_queue.absent n v t l r).2 = 0)
    ∧ (t = false ∧ queue_exists n l = true →
        mutCount (rabbitmq_queue.absent n v t l r).2 = 1))
  ∧ (∀ (n d dt rk v : String) (t : Bool) (l : List BindingItem)
        (r : Response),
      mutCount (rabbitmq_binding.present n d dt rk v t l r).2 ≤ 1
    ∧ ((rabbitmq_binding.present n d dt rk v t l r).2.all
        fun c => !c.isDelete) = true
    ∧ (t = true ∨ binding_exists n d dt rk v l = true →
        mutCount (rabbitmq_binding.present n d dt rk v t l r).2 = 0)
    ∧ (t = false ∧ binding_exists n d dt rk v l = false →
        mutCount (rabbitmq_binding.present n d dt rk v t l r).2 = 1))
  ∧ (∀ (n d rk dt v : String) (t : Bool) (l : List BindingItem)
        (r : Response),
      mutCount (rabbitmq_binding.absent n d rk dt v t l r).2 ≤ 1
    ∧ ((rabbitmq_binding.absent n d rk dt v t l r).2.all
        fun c => !c.isAdd) = true
    ∧ (t = true ∨
        pyNotStrOpt (binding_exists_with_props n d dt rk v l) = true →
        mutCount (rabbitmq_binding.absent n d rk dt v t l r).2 = 0)
    ∧ (t = false ∧
        pyNotStrOpt (binding_exists_with_props n d dt rk v l) = false →
        mutCount (rabbitmq_binding.absent n d rk dt v t l r).2 = 1)) := by
  refine ⟨?_, ?_, ?_, ?_, ?_, ?_⟩
  · intro n v t l r
    cases h : exchange_exists n l <;> cases t <;>
      simp [rabbitmq_exchange.present, h, mutCount, ClientCall.isMutating,
        ClientCall.isDelete]
  · intro n v t l r
    cases h : exchange_exists n l <;> cases t <;>
      simp [rabbitmq_exchange.absent, h, mutCount, ClientCall.isMutating,
        ClientCall.isAdd]
  · intro n v t l r
    cases h : queue_exists n l <;> cases t <;>
      simp [rabbitmq_queue.present, h, mutCount, ClientCall.isMutating,
        ClientCall.isDelete]
  · intro n v t l r
    cases h : queue_exists n l <;> cases t <;>
      simp [rabbitmq_queue.absent, h, mutCount, ClientCall.isMutating,
        ClientCall.isAdd]
  · intro n d dt rk v t l r
    cases h : binding_exists n d dt rk v l <;> cases t <;>
      simp [rabbitmq_binding.present, h, mutCount, ClientCall.isMutating,
        ClientCall.isDelete]
  · intro n d rk dt v t l r
    cases h : pyNotStrOpt (binding_exists_with_props n d dt rk v l) <;>
      cases t <;>
      simp [rabbitmq_binding.absent, h, mutCount, ClientCall.isMutating,
        ClientCall.isAdd]

/-- Witness for C8: a non-dry-run create on an empty broker performs
exactly one mutating call. -/
theorem one_mutating_call_per_invocation_witness :
    mutCount (rabbitmq_exchange.present "e" "/" false []
      (Response.str "ok")).2 = 1 :=
  (one_mutating_call_per_invocation.1 "e" "/" false []
    (Response.str "ok")).2.2.2 ⟨rfl, by decide⟩

/-- C9: the binding `absent` state tests the looked-up properties_key with
Python truthiness, so a looked-up empty-string properties_key is reported
as `not exists` with result true and empty changes, and no delete call is
issued. -/
theorem empty_properties_key_treated_absent
    (n d rk dt v : String) (t : Bool) (l : List BindingItem) (r : Response)
    (h : binding_exists_with_props n d dt rk v l = some "") :
    rabbitmq_binding.absent n d rk dt v t l r =
      (Except.ok ⟨n, some true,
          StComment.text ("Binding \x27" ++ n ++ "\x27 for vhost \x27" ++
            v ++ "\x27 not exists."), none⟩,
       [ClientCall.existsCheck "localhost"]) := by
  simp [rabbitmq_binding.absent, h, pyNotStrOpt]

/-- Witness for C9: a listing whose only record matches the five identity
fields and carries an empty properties_key. -/
theorem empty_properties_key_treated_absent_witness :
    rabbitmq_binding.absent "s" "d" "rk" "queue" "/" false
        [⟨"s", "d", "queue", "rk", "/", "", []⟩] (Response.str "out") =
      (Except.ok ⟨"s", some true,
          StComment.text
            "Binding \x27s\x27 for vhost \x27/\x27 not exists.",
          none⟩,
       [ClientCall.existsCheck "localhost"]) :=
  empty_properties_key_treated_absent "s" "d" "rk" "queue" "/" false
    [⟨"s", "d", "queue", "rk", "/", "", []⟩] (Response.str "out") rfl

/-- C10: every client call performed by a state-level present/absent
invocation — existence check, add or delete — carries the literal host
`localhost`; the state functions expose no host parameter. -/
theorem state_layer_host_always_localhost :
    (∀ (n v : String) (t : Bool) (l : List ExchangeItem) (r : Response),
      ((rabbitmq_exchange.present n v t l r).2.all
        fun c => c.host == "localhost") = true)
  ∧ (∀ (n v : String) (t : Bool) (l : List ExchangeItem) (r : Response),
      ((rabbitmq_exchange.absent n v t l r).2.all
        fun c => c.host == "localhost") = true)
  ∧ (∀ (n v : String) (t : Bool) (l : List QueueItem) (r : Response),
      ((rabbitmq_queue.present n v t l r).2.all
        fun c => c.host == "localhost") = true)
  ∧ (∀ (n v : String) (t : Bool) (l : List QueueItem) (r : Response),
      ((rabbitmq_queue.absent n v t l r).2.all
        fun c => c.host == "localhost") = true)
  ∧ (∀ (n d dt rk v : String) (t : Bool) (l : List BindingItem)
        (r : Response),
      ((rabbitmq_binding.present n d dt rk v t l r).2.all
        fun c => c.host == "localhost") = true)
  ∧ (∀ (n d rk dt v : String) (t : Bool) (l : List BindingItem)
        (r : Response),
      ((rabbitmq_binding.absent n d rk dt v t l r).2.all
        fun c => c.host == "localhost") = true) := by
  refine ⟨?_, ?_, ?_, ?_, ?_, ?_⟩
  · intro n v t l r
    cases h : exchange_exists n l <;> cases t <;>
      simp [rabbitmq_exchange.present, h, ClientCall.host]
  · intro n v t l r
    cases h : exchange_exists n l <;> cases t <;>
      simp [rabbitmq_exchange.absent, h, ClientCall.host]
  · intro n v t l r
    cases h : queue_exists n l <;> cases t <;>
      simp [rabbitmq_queue.present, h, ClientCall.host]
  · intro n v t l r
    cases h : queue_exists n l <;> cases t <;>
      simp [rabbitmq_queue.absent, h, ClientCall.host]
  · intro n d dt rk v t l r
    cases h : binding_exists n d dt rk v l <;> cases t <;>
      simp [rabbitmq_binding.present, h, ClientCall.host]
  · intro n d rk dt v t l r
    cases h : pyNotStrOpt (binding_exists_with_props n d dt rk v l) <;>
      cases t <;>
      simp [rabbitmq_binding.absent, h, ClientCall.host]
